import Mathlib

/-!
Shallow embedding of the ObrolDB agent (src/app.py, src/personaagent/*.py).

Python exceptions are modelled with `Except PyErr`; a Python function that
may raise returns `Except PyErr α`, a function that always returns normally
returns a plain value.  SQLite responses are passed in as parameters (the
result the cursor would deliver), so every statement about the Python
control flow holds for all possible database behaviours.
-/

namespace ObrolDB

/-- A raised Python exception (OperationalError from sqlite, KeyError from a
dict lookup, TypeError from iterating None, ...). -/
inductive PyErr where
  | operationalError (msg : String)
  | keyError (msg : String)
  | typeError (msg : String)
  deriving Repr, DecidableEq

/-- One row of `PRAGMA table_info`: (cid, name, type, notnull, dflt_value, pk).
The tools index it as a tuple: `col[1]` is `name`, `col[5]` is `pk`. -/
structure TableInfoRow where
  cid : Nat
  name : String
  type : String
  notnull : Nat
  dflt : Option String
  pk : Nat
  deriving Repr, DecidableEq

/-- One row of `PRAGMA foreign_key_list`; the tool uses `r[2]` (referenced
table), `r[3]` (from column) and `r[4]` (to column). -/
structure ForeignKeyRow where
  id : Nat
  seq : Nat
  table : String
  fromCol : String
  toCol : String
  deriving Repr, DecidableEq

/-- Observable effects of `with_sql_cursor` on the sqlite connection:
how many commits and rollbacks were issued, and whether the cursor and the
connection were closed when the scope exited. -/
structure ConnLog where
  commits : Nat
  rollbacks : Nat
  cursorClosed : Bool
  connClosed : Bool
  deriving Repr, DecidableEq

/-- `with_sql_cursor` (tools.py:43-66).  The body of the Python `with` block
runs at the `yield`; its outcome is the `body` argument.  Control flow:
`try: yield; if not readonly: commit` / `except: if not readonly: rollback;
raise` / `finally: cur.close(); conn.close()`.  Returns the propagated
outcome together with the connection effects. -/
def with_sql_cursor (readonly : Bool) (body : Except PyErr α) :
    Except PyErr α × ConnLog :=
  match body with
  | .ok a => (.ok a, ⟨if readonly then 0 else 1, 0, true, true⟩)
  | .error e => (.error e, ⟨0, if readonly then 0 else 1, true, true⟩)

/-! ## Identifier escaping (tools.py:110-115, 133-136 and the other
schema-inspection tools)

`safe = table_name.replace('"', '""')` at character level, and the SQL text
the f-strings produce. -/

/-- Character-level embedding of `str.replace('"', '""')`. -/
def escapeChars : List Char → List Char
  | [] => []
  | c :: cs => if c = '"' then '"' :: '"' :: escapeChars cs else c :: escapeChars cs

/-- `table_name.replace('"', '""')` as used by every schema-inspection tool. -/
def escapeIdent (s : String) : String := String.mk (escapeChars s.toList)

/-- The SQL text `get_columns` interpolates: `PRAGMA table_info("{safe}");`. -/
def get_columns_sql (table_name : String) : String :=
  "PRAGMA table_info(\"" ++ escapeIdent table_name ++ "\");"

/-- The SQL text `count_rows` interpolates: `SELECT COUNT(*) FROM "{safe}";`. -/
def count_rows_sql (table_name : String) : String :=
  "SELECT COUNT(*) FROM \"" ++ escapeIdent table_name ++ "\";"

/-- SQLite lexer for the inside of a double-quoted identifier, starting just
after the opening quote.  `""` decodes to one `"`; a lone `"` closes the
identifier.  Returns the decoded identifier together with the text that
follows the closing quote, or `none` when the identifier is unterminated
(a syntax error). -/
def lexQuoted : List Char → Option (List Char × List Char)
  | [] => none
  | c :: cs =>
    if c = '"' then
      match cs with
      | [] => some ([], [])
      | d :: ds =>
        if d = '"' then (lexQuoted ds).map (fun p => ('"' :: p.1, p.2))
        else some ([], cs)
    else (lexQuoted cs).map (fun p => (c :: p.1, p.2))

/-! ## The tools (tools.py:67-273)

Each tool takes, as a parameter, the outcome the sqlite cursor would deliver
for the statements the tool runs inside its `with with_sql_cursor()` block
(`Except.error` when the cursor raises), and routes it through
`with_sql_cursor`.  The tool's own outcome is an `Except PyErr String`:
`.ok` when the Python function returns a string, `.error` when an exception
escapes the tool.  The `ConnLog` of its gate use is returned alongside. -/

/-- A single quote character, used by Python tuple reprs. -/
def squote : String := String.mk [Char.ofNat 39]

/-- Python `str()` of one `PRAGMA table_info` tuple, as `describe_table`
prints it. -/
def pyReprRow (r : TableInfoRow) : String :=
  "(" ++ toString r.cid ++ ", " ++ squote ++ r.name ++ squote ++ ", "
    ++ squote ++ r.type ++ squote ++ ", " ++ toString r.notnull ++ ", "
    ++ (match r.dflt with
        | none => "None"
        | some d => squote ++ d ++ squote)
    ++ ", " ++ toString r.pk ++ ")"

/-- Markdown rendering of a result table; models
`pandas.DataFrame(rows, columns).to_markdown(index=False)` (the exact cell
padding pandas emits is abstracted; no claim below depends on it). -/
def markdownTable (cols : List String) (rows : List (List String)) : String :=
  String.intercalate "\n"
    (("| " ++ String.intercalate " | " cols ++ " |")
      :: ("|" ++ String.intercalate "|" (cols.map (fun _ => "---")) ++ "|")
      :: rows.map (fun r => "| " ++ String.intercalate " | " r ++ " |"))

/-- `list_tables` (tools.py:67-93): fetch the table names, format them as a
markdown bullet list with an insight; any exception is caught and turned
into `"Error listing tables."`. -/
def list_tables (fetch : Except PyErr (List String)) :
    Except PyErr String × ConnLog :=
  let (res, log) := with_sql_cursor true fetch
  match res with
  | .ok tables =>
    let table_list := String.intercalate "\n" (tables.map (fun t => "- " ++ t))
    let insight := "**Insight:** Database berisi " ++ toString tables.length
      ++ " tabel yang dapat diakses."
    (.ok ("**Daftar Tabel:**\n" ++ table_list ++ "\n\n" ++ insight), log)
  | .error _ => (.ok "Error listing tables.", log)

/-- `get_columns` (tools.py:95-116): `PRAGMA table_info`, join the column
names with ", "; any exception is caught. -/
def get_columns (body : Except PyErr (List TableInfoRow)) :
    Except PyErr String × ConnLog :=
  let (res, log) := with_sql_cursor true body
  match res with
  | .ok rows => (.ok (String.intercalate ", " (rows.map TableInfoRow.name)), log)
  | .error _ => (.ok "Error getting columns.", log)

/-- `count_rows` (tools.py:118-137): `SELECT COUNT(*)`, return `str(count)`;
any exception is caught. -/
def count_rows (body : Except PyErr Nat) : Except PyErr String × ConnLog :=
  let (res, log) := with_sql_cursor true body
  match res with
  | .ok count => (.ok (toString count), log)
  | .error _ => (.ok "Error counting rows.", log)

/-- `describe_table` (tools.py:139-160): `PRAGMA table_info`, one tuple repr
per line; any exception is caught. -/
def describe_table (body : Except PyErr (List TableInfoRow)) :
    Except PyErr String × ConnLog :=
  let (res, log) := with_sql_cursor true body
  match res with
  | .ok rows => (.ok (String.intercalate "\n" (rows.map pyReprRow)), log)
  | .error _ => (.ok "Error describing table.", log)

/-- `sample_table` (tools.py:162-191): `SELECT * ... LIMIT n`, render the
rows and cursor-description columns as markdown plus an insight naming the
(unescaped) table; any exception is caught. -/
def sample_table (table_name : String)
    (body : Except PyErr (List (List String) × List String)) :
    Except PyErr String × ConnLog :=
  let (res, log) := with_sql_cursor true body
  match res with
  | .ok rc =>
    let table_str := markdownTable rc.2 rc.1
    let insight := "**Insight:** Menampilkan " ++ toString rc.1.length
      ++ " baris sampel dari tabel " ++ table_name ++ ". "
      ++ "Data ini memberikan gambaran awal tentang isi tabel."
    (.ok (table_str ++ "\n\n" ++ insight), log)
  | .error _ => (.ok "Error sampling table.", log)

/-- `get_primary_keys` (tools.py:193-216).  NOTE: the source has no
`try`/`except` here — a cursor exception propagates out of the tool.
On success: the names of the columns whose pk flag is positive or whose
name ends with "ID", joined with ", ". -/
def get_primary_keys (body : Except PyErr (List TableInfoRow)) :
    Except PyErr String × ConnLog :=
  let (res, log) := with_sql_cursor true body
  match res with
  | .ok rows =>
    (.ok (String.intercalate ", "
      ((rows.filter (fun col => col.pk > 0 || col.name.endsWith "ID")).map
        TableInfoRow.name)), log)
  | .error e => (.error e, log)

/-- `get_foreign_keys` (tools.py:218-236).  NOTE: no `try`/`except` here
either — a cursor exception propagates out of the tool.  On success: one
line `from → table.to` per foreign-key row. -/
def get_foreign_keys (body : Except PyErr (List ForeignKeyRow)) :
    Except PyErr String × ConnLog :=
  let (res, log) := with_sql_cursor true body
  match res with
  | .ok rows =>
    (.ok (String.intercalate "\n"
      (rows.map (fun r => r.fromCol ++ " → " ++ r.table ++ "." ++ r.toCol))), log)
  | .error e => (.error e, log)

/-- What `cursor.execute(sql_query); fetchall(); description` delivers:
the fetched rows and the cursor description (Python `None` — here `none` —
for statements that produce no result set, e.g. INSERT/UPDATE/DELETE). -/
structure ExecOutput where
  rows : List (List String)
  description : Option (List String)
  deriving Repr, DecidableEq

/-- The body of `execute_sql`'s `with` block (tools.py:251-255): run the
query, fetch the rows, then iterate `cursor.description` — iterating `None`
raises a TypeError inside the block. -/
def executeSqlBody (exec : Except PyErr ExecOutput) :
    Except PyErr (List (List String) × List String) :=
  match exec with
  | .error e => .error e
  | .ok out =>
    match out.description with
    | none => .error (.typeError "argument of type NoneType is not iterable")
    | some cols => .ok (out.rows, cols)

/-- `execute_sql` (tools.py:238-273): opens the gate with the default
`readonly=True`, renders the result as markdown plus an insight, and maps
every exception to one fixed error string.  `db` gives the cursor-level
outcome of each possible `sql_query`. -/
def execute_sql (db : String → Except PyErr ExecOutput) (sql_query : String) :
    Except PyErr String × ConnLog :=
  let (res, log) := with_sql_cursor true (executeSqlBody (db sql_query))
  match res with
  | .ok rc =>
    let table_str := markdownTable rc.2 rc.1
    let insight := "**Insight:** Query menghasilkan " ++ toString rc.1.length
      ++ " baris data. "
      ++ (if rc.1.length > 0 then
            "Data menunjukkan informasi relevan dari tabel " ++ rc.2.headD ""
              ++ " dan kolom terkait."
          else "Tidak ada data yang ditemukan untuk permintaan ini.")
    (.ok (table_str ++ "\n\n" ++ insight), log)
  | .error _ =>
    (.ok "An error occurred when executing the query. Please check your request.", log)

/-- Spec-side characterisation of the key heuristic (spec §4.2, row
`get_primary_keys`): the columns treated as keys are exactly those the
schema marks as primary (positive pk flag) or whose name ends in "ID",
kept in schema-declared order. -/
def specPrimaryKeyColumns (rows : List TableInfoRow) : List String :=
  (rows.filter (fun c => c.pk > 0 || c.name.endsWith "ID")).map TableInfoRow.name

/-! ## Tool dispatch (tools.py:26-41) -/

/-- A Python value as it occurs inside a langchain `ToolCall` dict. -/
inductive PyVal where
  | str (s : String)
  | pyDict (entries : List (String × PyVal))
  | pyNone
  deriving Repr

/-- A Python dict with string keys, in insertion order. -/
abbrev PyDict := List (String × PyVal)

/-- Python `str()` on a ToolCall value.  (`str` of a dict would be its repr;
abstracted here, it is never consulted below.) -/
def pyStr : PyVal → String
  | .str s => s
  | .pyNone => "None"
  | .pyDict _ => "<dict>"

/-- `d[k]` / `d.get(k)` lookup: first entry with the given key. -/
def dictGet? (d : PyDict) (k : String) : Option PyVal :=
  (d.find? (fun p => p.1 == k)).map Prod.snd

/-- `d.get(k, default)` where `k` may be Python `None` (the keys here are
strings, so a `None` key is never present). -/
def dictGetD (d : PyDict) (k : Option String) (dflt : PyVal) : PyVal :=
  match k with
  | none => dflt
  | some key => (dictGet? d key).getD dflt

/-- Bool test that `needle` occurs as a contiguous substring of `hay`
(Python `needle in hay` on strings). -/
def containsSubstring (needle : List Char) : List Char → Bool
  | [] => needle.isEmpty
  | c :: t => needle.isPrefixOf (c :: t) || containsSubstring needle t

/-- Python `"id" in k.lower()` for a dict key `k` (lowercasing applied per
character). -/
def isIdLikeKey (k : String) : Bool :=
  containsSubstring "id".toList (k.toList.map Char.toLower)

/-- `next((k for k in tool_call.keys() if "id" in k.lower()), None)`:
the first key of the dict, in insertion order, containing "id". -/
def findIdKey (tc : PyDict) : Option String :=
  (tc.map Prod.fst).find? (fun k => isIdLikeKey k)

/-- The message `call_tool` wraps a tool result in. -/
structure ToolMessage where
  content : String
  tool_call_id : String
  deriving Repr, DecidableEq

/-- `call_tool` (tools.py:26-41): look the tool up by the call's `name`
(a missing name or an unregistered tool raises KeyError), invoke it on the
call's `args` (tools are modelled as total functions here), then resolve the
correlation id heuristically: the first key containing "id" (else default
`""`), passed through `str()`. -/
def call_tool (registry : List (String × (PyVal → String))) (tc : PyDict) :
    Except PyErr ToolMessage :=
  match dictGet? tc "name" with
  | none => .error (.keyError "name")
  | some (.str n) =>
    match (registry.find? (fun p => p.1 == n)).map Prod.snd with
    | none => .error (.keyError n)
    | some t =>
      match dictGet? tc "args" with
      | none => .error (.keyError "args")
      | some argsV =>
        let call_id := pyStr (dictGetD tc (findIdKey tc) (.str ""))
        .ok ⟨t argsV, call_id⟩
  | some _ => .error (.keyError "tool name is not a string")

/-- The dict langchain builds for one model tool call:
`{"name": ..., "args": ..., "id": ..., "type": "tool_call"}`. -/
def mkToolCall (n : String) (args : PyVal) (callId : String) : PyDict :=
  [("name", .str n), ("args", args), ("id", .str callId),
   ("type", .str "tool_call")]

/-! ## The agent loop (agent.py:52-84) and its caller (app.py:126-132) -/

/-- A conversation message (langchain System/Human/AI/Tool messages). -/
inductive Msg where
  | system (content : String)
  | human (content : String)
  | ai (content : String) (tool_calls : List PyDict)
  | toolMsg (content : String) (tool_call_id : String)

/-- One model response: final text plus the tool calls it carries. -/
structure ModelResponse where
  content : String
  tool_calls : List PyDict

/-- The message `ask` raises when the iteration budget is exhausted
(agent.py:81-83). -/
def maxIterationsMsg : String :=
  "Maximum number of iterations reached. Please try again with a different query."

/-- The contextualized prompt `ask` builds (agent.py:60-64): retrieved
passages joined with newlines, prepended to the user query. -/
def contextualize (retrieved : List String) (query : String) : String :=
  "Konteks Dokumen:\n" ++ String.intercalate "\n" retrieved
    ++ "\n\nPertanyaan Pengguna: " ++ query

/-- The `while n_iterations < max_iterations` loop of `ask` (agent.py:69-83),
recursing on the remaining budget.  Each pass invokes the model once,
appends its response, returns its content if it carries no tool calls, and
otherwise appends one dispatched message per tool call in emission order.
Returns the outcome (`.error` = the RuntimeError raised on exhaustion)
paired with the number of model invocations performed. -/
def askLoop (llm : List Msg → ModelResponse) (dispatch : PyDict → Msg) :
    List Msg → Nat → Except String String × Nat
  | _, 0 => (.error maxIterationsMsg, 0)
  | messages, r + 1 =>
    let response := llm messages
    let messages1 := messages ++ [Msg.ai response.content response.tool_calls]
    if response.tool_calls.isEmpty then
      (.ok response.content, 1)
    else
      let out := askLoop llm dispatch (messages1 ++ response.tool_calls.map dispatch) r
      (out.1, out.2 + 1)

/-- `ask` (agent.py:52-84): retrieve context, copy the caller's history,
append the contextualized Human message, and run the loop.  The working list
starts from the history's value; the caller's list itself is untouched
(`messages = history.copy()`, agent.py:66). -/
def ask (retrieved : List String) (query : String) (history : List Msg)
    (llm : List Msg → ModelResponse) (dispatch : PyDict → Msg)
    (max_iterations : Nat) : Except String String × Nat :=
  askLoop llm dispatch
    (history ++ [Msg.human (contextualize retrieved query)]) max_iterations

/-- The chat-input handler (app.py:126-132): run `ask` with the default
budget of 20; on success append exactly `HumanMessage(prompt)` and
`AIMessage(response)` to the stored history; a raised error propagates and
nothing is appended. -/
def chatHandler (retrieved : List String) (history : List Msg) (prompt : String)
    (llm : List Msg → ModelResponse) (dispatch : PyDict → Msg) :
    Except String (List Msg) :=
  match (ask retrieved prompt history llm dispatch 20).1 with
  | .ok response => .ok (history ++ [Msg.human prompt, Msg.ai response []])
  | .error e => .error e

/-! ## Theorems -/

/-- C3: `with_sql_cursor` closes cursor and connection on every exit path,
re-raises the body's error unchanged (and passes a success through),
commits exactly when the body succeeded and the gate is not readonly,
rolls back exactly when the body raised and the gate is not readonly;
so in readonly mode it never commits and never rolls back. -/
theorem with_sql_cursor_discipline (readonly : Bool) (body : Except PyErr α) :
    (with_sql_cursor readonly body).1 = body ∧
    (with_sql_cursor readonly body).2.cursorClosed = true ∧
    (with_sql_cursor readonly body).2.connClosed = true ∧
    (with_sql_cursor readonly body).2.commits
      = (if readonly = false ∧ body.isOk then 1 else 0) ∧
    (with_sql_cursor readonly body).2.rollbacks
      = (if readonly = false ∧ body.isOk = false then 1 else 0) := by
  cases body <;> cases readonly <;>
    simp [with_sql_cursor, Except.isOk, Except.toBool]

/-- C4: `execute_sql` opens the access gate with the default
`readonly=True`, so for every database behaviour and every sql_query the
gate issues no commit (and, being readonly, no rollback either): a mutating
statement run through `execute_sql` is never committed by this layer. -/
theorem execute_sql_never_commits (db : String → Except PyErr ExecOutput)
    (sql_query : String) :
    (execute_sql db sql_query).2.commits = 0 ∧
    (execute_sql db sql_query).2.rollbacks = 0 := by
  cases h : executeSqlBody (db sql_query) <;>
    simp [execute_sql, with_sql_cursor, h]

/-- C9: whenever the execution of `sql_query` fails, `execute_sql` returns
the one fixed error string — the same for every failing query and every
exception, so the error output carries neither the SQL text nor the raw
exception (two failing runs produce identical output). -/
theorem execute_sql_error_uniform :
    (∀ (db : String → Except PyErr ExecOutput) (q : String),
      (executeSqlBody (db q)).isOk = false →
      (execute_sql db q).1
        = .ok "An error occurred when executing the query. Please check your request.") ∧
    (∀ (db₁ : String → Except PyErr ExecOutput) (q₁ : String)
       (db₂ : String → Except PyErr ExecOutput) (q₂ : String),
      (executeSqlBody (db₁ q₁)).isOk = false →
      (executeSqlBody (db₂ q₂)).isOk = false →
      (execute_sql db₁ q₁).1 = (execute_sql db₂ q₂).1) := by
  have key : ∀ (db : String → Except PyErr ExecOutput) (q : String),
      (executeSqlBody (db q)).isOk = false →
      (execute_sql db q).1
        = .ok "An error occurred when executing the query. Please check your request." := by
    intro db q h
    cases hb : executeSqlBody (db q) with
    | ok v => rw [hb] at h; simp [Except.isOk, Except.toBool] at h
    | error e => simp [execute_sql, with_sql_cursor, hb]
  exact ⟨key, fun db₁ q₁ db₂ q₂ h₁ h₂ => by rw [key db₁ q₁ h₁, key db₂ q₂ h₂]⟩

/-- C9 witness: two concrete failing runs — one raising OperationalError on
a SELECT, one a mutating statement whose cursor description is None — both
yield the fixed opaque error string. -/
theorem execute_sql_error_uniform_witness :
    (execute_sql (fun _ => .error (.operationalError "no such table: Foo"))
        "SELECT * FROM Foo").1
      = .ok "An error occurred when executing the query. Please check your request." ∧
    (execute_sql (fun _ => .error (.operationalError "no such table: Foo"))
        "SELECT * FROM Foo").1
      = (execute_sql (fun _ => .ok ⟨[], none⟩) "UPDATE Bar SET x = 1").1 :=
  ⟨execute_sql_error_uniform.1 _ "SELECT * FROM Foo" rfl,
   execute_sql_error_uniform.2 _ "SELECT * FROM Foo" _ "UPDATE Bar SET x = 1" rfl rfl⟩

/-- C1 counterexample: `get_primary_keys` has no `try`/`except`
(tools.py:193-216), so when the database access raises — here an
OperationalError "database is locked" — the exception propagates past the
tool's boundary instead of being converted to an error string. -/
theorem get_primary_keys_propagates_error :
    (get_primary_keys (.error (.operationalError "database is locked"))).1
      = .error (.operationalError "database is locked") := rfl

/-- C1 amended: the six tools with a `try`/`except` (list_tables,
get_columns, count_rows, describe_table, sample_table, execute_sql) return
a string normally for every database behaviour; get_primary_keys and
get_foreign_keys return normally whenever the cursor delivers a row set —
in particular the empty row set an unknown table name produces — but have
no handler for a raising access. -/
theorem tools_error_containment :
    (∀ fetch : Except PyErr (List String), (list_tables fetch).1.isOk = true) ∧
    (∀ body : Except PyErr (List TableInfoRow), (get_columns body).1.isOk = true) ∧
    (∀ body : Except PyErr Nat, (count_rows body).1.isOk = true) ∧
    (∀ body : Except PyErr (List TableInfoRow), (describe_table body).1.isOk = true) ∧
    (∀ (t : String) (body : Except PyErr (List (List String) × List String)),
      (sample_table t body).1.isOk = true) ∧
    (∀ (db : String → Except PyErr ExecOutput) (q : String),
      (execute_sql db q).1.isOk = true) ∧
    (∀ rows : List TableInfoRow, (get_primary_keys (.ok rows)).1.isOk = true) ∧
    (∀ rows : List ForeignKeyRow, (get_foreign_keys (.ok rows)).1.isOk = true) := by
  refine ⟨fun fetch => ?_, fun body => ?_, fun body => ?_, fun body => ?_,
    fun t body => ?_, fun db q => ?_, fun rows => ?_, fun rows => ?_⟩
  · cases fetch <;> simp [list_tables, with_sql_cursor, Except.isOk, Except.toBool]
  · cases body <;> simp [get_columns, with_sql_cursor, Except.isOk, Except.toBool]
  · cases body <;> simp [count_rows, with_sql_cursor, Except.isOk, Except.toBool]
  · cases body <;> simp [describe_table, with_sql_cursor, Except.isOk, Except.toBool]
  · cases body <;> simp [sample_table, with_sql_cursor, Except.isOk, Except.toBool]
  · cases h : executeSqlBody (db q) <;>
      simp [execute_sql, with_sql_cursor, h, Except.isOk, Except.toBool]
  · simp [get_primary_keys, with_sql_cursor, Except.isOk, Except.toBool]
  · simp [get_foreign_keys, with_sql_cursor, Except.isOk, Except.toBool]

/-- C7: on a successful `PRAGMA table_info` fetch, `get_primary_keys`
returns the comma-separated names of exactly the columns whose pk flag is
positive or whose name ends in "ID"; the selected names are a sublist of
the schema-declared column order, and membership is characterised by the
heuristic. -/
theorem get_primary_keys_heuristic (rows : List TableInfoRow) :
    (get_primary_keys (.ok rows)).1
      = .ok (String.intercalate ", " (specPrimaryKeyColumns rows)) ∧
    (specPrimaryKeyColumns rows).Sublist (rows.map TableInfoRow.name) ∧
    (∀ n, n ∈ specPrimaryKeyColumns rows ↔
      ∃ c, c ∈ rows ∧ c.name = n ∧ (0 < c.pk ∨ c.name.endsWith "ID" = true)) := by
  refine ⟨rfl, List.Sublist.map TableInfoRow.name (List.filter_sublist rows), fun n => ?_⟩
  simp [specPrimaryKeyColumns, List.mem_filter, List.mem_map]
  constructor
  · rintro ⟨c, ⟨hc, hp⟩, hn⟩
    exact ⟨c, hc, hn, by simpa using hp⟩
  · rintro ⟨c, hc, hn, hp⟩
    exact ⟨c, ⟨hc, by simpa using hp⟩, hn⟩

/-- Lexing the escaped name: as long as the text after the intended closing
quote does not itself start with a quote, the quoted-identifier lexer
consumes exactly the escaped region, decodes it back to the original name,
and resumes at the intended position. -/
theorem lexQuoted_escapeChars (cs : List Char) (rest : List Char)
    (h : rest.head? ≠ some '"') :
    lexQuoted (escapeChars cs ++ '"' :: rest) = some (cs, rest) := by
  induction cs with
  | nil =>
    cases rest with
    | nil => rfl
    | cons d ds =>
      have hd : d ≠ '"' := fun hd => h (by simp [hd])
      simp [escapeChars, lexQuoted, hd]
  | cons c cs ih =>
    by_cases hc : c = '"'
    · subst hc
      simp only [escapeChars, if_pos rfl, List.cons_append]
      rw [lexQuoted.eq_def]
      simp [ih]
    · simp only [escapeChars, if_neg hc, List.cons_append]
      rw [lexQuoted.eq_def]
      simp [hc, ih]

/-- C8: the SQL texts `get_columns` and `count_rows` generate place the
whole (escaped) table name inside one double-quoted identifier: the lexer
reads exactly the escaped region as a single identifier that decodes back
to the original table name — even when the name contains double quotes —
and resumes at the fixed tail, so the name can neither terminate the
identifier early nor break out of the identifier context, and the
identifier is well-formed (no syntax error).  The fixed prefixes contain no
quote, so the identifier indeed starts where intended. -/
theorem identifier_escaping_safe (table_name : String) :
    (get_columns_sql table_name).toList
      = "PRAGMA table_info(".toList
          ++ '"' :: ((escapeIdent table_name).toList ++ '"' :: ");".toList) ∧
    lexQuoted ((escapeIdent table_name).toList ++ '"' :: ");".toList)
      = some (table_name.toList, ");".toList) ∧
    (count_rows_sql table_name).toList
      = "SELECT COUNT(*) FROM ".toList
          ++ '"' :: ((escapeIdent table_name).toList ++ '"' :: ";".toList) ∧
    lexQuoted ((escapeIdent table_name).toList ++ '"' :: ";".toList)
      = some (table_name.toList, ";".toList) ∧
    ("PRAGMA table_info(".toList.contains '"') = false ∧
    ("SELECT COUNT(*) FROM ".toList.contains '"') = false := by
  have hesc : (escapeIdent table_name).toList = escapeChars table_name.toList := rfl
  refine ⟨?_, ?_, ?_, ?_, by decide, by decide⟩
  · simp [get_columns_sql, String.toList, String.data_append, escapeIdent]
  · rw [hesc]; exact lexQuoted_escapeChars _ _ (by decide)
  · simp [count_rows_sql, String.toList, String.data_append, escapeIdent]
  · rw [hesc]; exact lexQuoted_escapeChars _ _ (by decide)

/-- C5: dispatching a langchain-shaped ToolCall whose name is registered
yields exactly one ToolMessage carrying the call's own id — the correlation
id survives dispatch. -/
theorem call_tool_preserves_call_id (registry : List (String × (PyVal → String)))
    (n : String) (args : PyVal) (x : String) (f : PyVal → String)
    (h : (registry.find? (fun p => p.1 == n)).map Prod.snd = some f) :
    call_tool registry (mkToolCall n args x) = .ok ⟨f args, x⟩ := by
  have hname : dictGet? (mkToolCall n args x) "name" = some (PyVal.str n) := rfl
  have hargs : dictGet? (mkToolCall n args x) "args" = some args := rfl
  have hid : pyStr (dictGetD (mkToolCall n args x)
      (findIdKey (mkToolCall n args x)) (.str "")) = x := rfl
  simp only [call_tool, hname, h, hargs, hid]

/-- C5 witness: a concrete registry and a ToolCall with id "x" dispatch to a
ToolMessage with tool_call_id "x". -/
theorem call_tool_preserves_call_id_witness :
    call_tool [("list_tables", fun _ => "ok")]
        (mkToolCall "list_tables" (.pyDict []) "x")
      = .ok ⟨"ok", "x"⟩ :=
  call_tool_preserves_call_id [("list_tables", fun _ => "ok")]
    "list_tables" (.pyDict []) "x" (fun _ => "ok") rfl

/-- C10: when the ToolCall dict names a registered tool and carries args but
has no key whose lowercase form contains "id", the heuristic id search finds
nothing, `tool_call.get(None, "")` returns the default, and `call_tool`
returns normally with `tool_call_id = ""`. -/
theorem call_tool_defaults_to_empty_id
    (registry : List (String × (PyVal → String))) (n : String) (args : PyVal)
    (f : PyVal → String) (tc : PyDict)
    (hname : dictGet? tc "name" = some (.str n))
    (hreg : (registry.find? (fun p => p.1 == n)).map Prod.snd = some f)
    (hargs : dictGet? tc "args" = some args)
    (hnoid : ∀ k ∈ tc.map Prod.fst, isIdLikeKey k = false) :
    call_tool registry tc = .ok ⟨f args, ""⟩ := by
  have hid : findIdKey tc = none := by
    unfold findIdKey
    apply List.find?_eq_none.mpr
    intro k hk
    simp [hnoid k hk]
  simp only [call_tool, hname, hreg, hargs, hid, dictGetD, pyStr]

/-- C10 witness: a ToolCall with only "name" and "args" keys dispatches to a
ToolMessage whose tool_call_id is "". -/
theorem call_tool_defaults_to_empty_id_witness :
    call_tool [("list_tables", fun _ => "ok")]
        [("name", PyVal.str "list_tables"), ("args", PyVal.pyDict [])]
      = .ok ⟨"ok", ""⟩ :=
  call_tool_defaults_to_empty_id [("list_tables", fun _ => "ok")]
    "list_tables" (PyVal.pyDict []) (fun _ => "ok")
    [("name", PyVal.str "list_tables"), ("args", PyVal.pyDict [])]
    rfl rfl rfl (by decide)

/-- Each pass of the loop performs one model invocation, so a budget of `n`
admits at most `n` invocations. -/
theorem askLoop_invocations_le (llm : List Msg → ModelResponse)
    (dispatch : PyDict → Msg) (messages : List Msg) (n : Nat) :
    (askLoop llm dispatch messages n).2 ≤ n := by
  induction n generalizing messages with
  | zero => simp [askLoop]
  | succ r ih =>
    rw [askLoop]
    by_cases h : (llm messages).tool_calls.isEmpty
    · simp [h]
    · simpa [h] using Nat.succ_le_succ (ih _)

/-- When every model response carries a tool call, the loop consumes its
whole budget, invokes the model once per unit of budget, and raises the
max-iterations RuntimeError. -/
theorem askLoop_exhausts (llm : List Msg → ModelResponse)
    (dispatch : PyDict → Msg) (hllm : ∀ msgs, (llm msgs).tool_calls ≠ [])
    (messages : List Msg) (n : Nat) :
    askLoop llm dispatch messages n = (.error maxIterationsMsg, n) := by
  induction n generalizing messages with
  | zero => rfl
  | succ r ih =>
    have h : (llm messages).tool_calls.isEmpty = false := by
      cases hcase : (llm messages).tool_calls with
      | nil => exact absurd hcase (hllm messages)
      | cons a t => rfl
    rw [askLoop]
    simp [h, ih]

/-- C2: `ask` performs at most `max_iterations` model invocations; if every
model response carries at least one tool call, `ask` raises the
"Maximum number of iterations reached" RuntimeError after exactly
`max_iterations` model invocations — never returning normally. -/
theorem ask_iteration_budget (retrieved : List String) (query : String)
    (history : List Msg) (llm : List Msg → ModelResponse)
    (dispatch : PyDict → Msg) (max_iterations : Nat) :
    (ask retrieved query history llm dispatch max_iterations).2 ≤ max_iterations ∧
    ((∀ msgs, (llm msgs).tool_calls ≠ []) →
      ask retrieved query history llm dispatch max_iterations
        = (.error maxIterationsMsg, max_iterations)) :=
  ⟨askLoop_invocations_le llm dispatch _ max_iterations,
   fun hllm => askLoop_exhausts llm dispatch hllm _ max_iterations⟩

/-- C2 witness: a model that always requests one tool call, with a budget of
3, is invoked exactly 3 times and the loop raises the max-iterations
error. -/
theorem ask_iteration_budget_witness :
    ask [] "q" [] (fun _ => ⟨"", [[]]⟩) (fun _ => Msg.toolMsg "" "") 3
      = (.error maxIterationsMsg, 3) :=
  (ask_iteration_budget [] "q" [] (fun _ => ⟨"", [[]]⟩)
      (fun _ => Msg.toolMsg "" "") 3).2 (fun _ => by simp)

/-- C6: `ask` works on a copy of the caller's history (`history.copy()`,
agent.py:66) and returns only the answer text, so the stored history is
unchanged when `ask` returns or raises; on success the caller appends
exactly one Human and one AI message — the stored history stays a prefix
and grows by exactly 2 — and on a raised error it appends nothing, the
error propagating unchanged. -/
theorem ask_appends_only_final_exchange (retrieved : List String)
    (history : List Msg) (prompt : String) (llm : List Msg → ModelResponse)
    (dispatch : PyDict → Msg) :
    (∀ out, chatHandler retrieved history prompt llm dispatch = .ok out →
      ∃ a, (ask retrieved prompt history llm dispatch 20).1 = .ok a ∧
        out = history ++ [Msg.human prompt, Msg.ai a []] ∧
        out.take history.length = history ∧
        out.length = history.length + 2) ∧
    (∀ e, chatHandler retrieved history prompt llm dispatch = .error e →
      (ask retrieved prompt history llm dispatch 20).1 = .error e) := by
  constructor
  · intro out hout
    unfold chatHandler at hout
    cases hask : (ask retrieved prompt history llm dispatch 20).1 with
    | ok a =>
      rw [hask] at hout
      simp only [Except.ok.injEq] at hout
      refine ⟨a, rfl, hout.symm, ?_, ?_⟩
      · rw [← hout]; exact List.take_left history _
      · rw [← hout]; simp
    | error e => rw [hask] at hout; simp at hout
  · intro e he
    unfold chatHandler at he
    cases hask : (ask retrieved prompt history llm dispatch 20).1 with
    | ok a => rw [hask] at he; simp at he
    | error e₂ =>
      rw [hask] at he
      simp only [Except.error.injEq] at he
      rw [he]

/-- C6 witness: with a model that answers immediately, the handler run on an
empty stored history yields exactly the Human/AI pair for this exchange. -/
theorem ask_appends_only_final_exchange_witness :
    ∃ a, (ask [] "q" [] (fun _ => ⟨"ans", []⟩) (fun _ => Msg.toolMsg "" "") 20).1
        = .ok a ∧
      ([Msg.human "q", Msg.ai "ans" []] : List Msg)
        = [] ++ [Msg.human "q", Msg.ai a []] ∧
      ([Msg.human "q", Msg.ai "ans" []] : List Msg).take
          (List.length ([] : List Msg)) = ([] : List Msg) ∧
      ([Msg.human "q", Msg.ai "ans" []] : List Msg).length
        = ([] : List Msg).length + 2 :=
  (ask_appends_only_final_exchange [] [] "q" (fun _ => ⟨"ans", []⟩)
      (fun _ => Msg.toolMsg "" "")).1 [Msg.human "q", Msg.ai "ans" []] rfl

end ObrolDB
